import Mathlib

/-!
Verification development for the DashVolcano page-5 pipeline
(`DashVolcano.2.0/pages/page_5.py`): the cross-dataset record-matching and
filter pipeline joining GEOROC petrology samples with GVP eruption events.

The embedding translates the pandas dataframes into Lean lists of records.
Float-valued columns that may hold NaN (months, days) are modelled as
`Option ℚ`, with `none` standing for NaN/null; numeric comparisons against
`none` are `false`, matching IEEE semantics of NaN comparisons used by
numpy/pandas.  Year columns compared via `astype(str)` in the source are
modelled as integers: the string rendering of a year value is injective, so
string equality of renderings coincides with equality of the values.
-/

namespace DashVolcano

/-- A GEOROC sample row (the columns of `thisdf` used by page 5):
ERUPTION YEAR, ERUPTION MONTH, ERUPTION DAY (float columns with NaN,
modelled as `Option`), the three oxide columns used by the traces, and the
rock-class `color` label. -/
structure SampleRow where
  eruptionYear : Option Int
  eruptionMonth : Option ℚ
  eruptionDay : Option ℚ
  sio2 : ℚ
  na2o : ℚ
  k2o : ℚ
  color : String
deriving DecidableEq, Repr

/-- A GVP eruption-event row (the columns of the global `df` used by page 5):
Volcano Name, Start Year, End Year (nullable), Start/End Month (float with
NaN) and VEI (nullable). -/
structure EventRow where
  volcanoName : String
  startYear : Int
  endYear : Option Int
  startMonth : Option ℚ
  endMonth : Option ℚ
  vei : Option ℚ
deriving DecidableEq, Repr

/-- A joined row: the `colsGvp` fields of one GVP event row concatenated with
one full GEOROC sample row (`list(rowgvp) + list(rw)` in the source). -/
structure JoinedRow where
  gvpName : String
  gvpStartYear : Int
  gvpEndYear : Option Int
  gvpVei : Option ℚ
  sample : SampleRow
deriving DecidableEq, Repr

/-- The three chronogram periods offered by the `period-button` radio items. -/
inductive Period where
  | beforeCommonEra
  | commonEraBefore1679
  | commonEraFrom1679
deriving DecidableEq, Repr

/-! ## Name resolution (page_5.py lines 276-284 and 322-330) -/

/-- ASCII model of Python `str.title()`: an alphabetic character is
uppercased when the previous character is not alphabetic and lowercased
otherwise; other characters pass through and reset the word boundary. -/
def pyTitleAux : Bool → List Char → List Char
  | _, [] => []
  | prevAlpha, c :: cs =>
    if c.isAlpha then
      (if prevAlpha then c.toLower else c.toUpper) :: pyTitleAux true cs
    else
      c :: pyTitleAux false cs

/-- Python `str.title()` on a string. -/
def pyTitle (s : String) : String := ⟨pyTitleAux false s.data⟩

/-- The name-resolution block of page_5.py (lines 276-284, repeated at
322-330): `n = volcano_name`; if `n` is a key of `dict_Georoc_sl`, replace it
by `dict_Georoc_sl[n]`; then if the (possibly replaced) `n` is a key of
`dict_Georoc_GVP`, the result is `dict_Georoc_GVP[n]`, else it is
`volcano_name.title()` — the title-casing of the original raw name.
Python dicts are modelled as association lists with `List.lookup`. -/
def resolve (sl gvp : List (String × String)) (nameRaw : String) : String :=
  let n := nameRaw
  let n := if (sl.lookup n).isSome then (sl.lookup n).getD n else n
  if (gvp.lookup n).isSome then (gvp.lookup n).getD n else pyTitle nameRaw

/-- Written from the spec's words (§4.1): look up `rawName` in
`rawNameToCanonicalShort`; if found, replace with the short form.  Then look
up the (possibly replaced) value in `shortNameToCanonicalEventName`; if
found, use it.  If neither lookup succeeds, fall back to a title-cased
transform of the original raw name (not the short form).  No error is raised
for an unresolved name: the function is total. -/
def resolveSpec (sl gvp : List (String × String)) (rawName : String) : String :=
  let short := match sl.lookup rawName with
    | some s => s
    | none => rawName
  match gvp.lookup short with
  | some c => c
  | none => pyTitle rawName

/-! ## The record joiner (`update_joint_chemchart`, page_5.py lines 301-408) -/

/-- pandas `Series.unique()`: the distinct values of a column in order of
first occurrence (NaN, modelled as `none`, is a value of its own). -/
def uniqueAux {α : Type} [DecidableEq α] : List α → List α → List α
  | [], _ => []
  | a :: l, seen => if a ∈ seen then uniqueAux l seen else a :: uniqueAux l (a :: seen)

/-- Distinct values of a list in order of first occurrence. -/
def uniqueFirst {α : Type} [DecidableEq α] (l : List α) : List α := uniqueAux l []

/-- Line 338-339: if 'End Year' is NaN, use 'Start Year' (applied to the
per-volcano slice `dfmatchv`, a fresh copy produced by boolean-mask
indexing, never to the shared table `df`). -/
def fillEndYear (r : EventRow) : EventRow :=
  { r with endYear := some (r.endYear.getD r.startYear) }

/-- Line 362: `dfmatchv[(dfmatchv['Start Year'].astype(str) == se[0]) &
(dfmatchv['End Year'].astype(str) == se[1])]` — the event rows whose start
and end year (string-)equal the matched date pair. -/
def dfmatchSel (dfmatchv : List EventRow) (se0 se1 : Int) : List EventRow :=
  dfmatchv.filter (fun r => decide (r.startYear = se0 ∧ r.endYear = some se1))

/-- Lines 364: `gm = [x for x in thisdf[thisdf['ERUPTION YEAR']==gy]['ERUPTION MONTH'].unique()]`
— the distinct ERUPTION MONTH values of the samples whose year equals `gy`
(a row whose year column is NaN compares unequal to every `gy`). -/
def sampleMonths (samples : List SampleRow) (gy : Int) : List (Option ℚ) :=
  uniqueFirst ((samples.filter (fun s => decide (s.eruptionYear = some gy))).map
    (fun s => s.eruptionMonth))

/-- Line 365: `not(np.isnan(x)) and (x>0)` — a month value is good when it is
non-NaN and strictly positive. -/
def isGoodMonth : Option ℚ → Bool
  | some v => decide (0 < v)
  | none => false

/-- Lines 369-371: the `(Start Month, End Month)` float pairs of the matched
event rows, keeping only pairs whose two components are non-NaN and
strictly positive. -/
def cleanPairs (dfmatch : List EventRow) : List (ℚ × ℚ) :=
  dfmatch.filterMap (fun r =>
    match r.startMonth, r.endMonth with
    | some a, some b => if 0 < a ∧ 0 < b then some (a, b) else none
    | _, _ => none)

/-- Line 373: `fnd_months = [[y,x] for x in gvpm for y in gm if x[0] <= y <= x[1]]`
— the (sampleMonth, eventMonthRange) combinations; a NaN sample month
(`none`) satisfies no comparison and yields no combination. -/
def fndMonths (dfmatch : List EventRow) (gm0 : List (Option ℚ)) : List (ℚ × ℚ × ℚ) :=
  (cleanPairs dfmatch).flatMap (fun x =>
    gm0.filterMap (fun yo =>
      match yo with
      | some y => if x.1 ≤ y ∧ y ≤ x.2 then some (y, x) else none
      | none => none))

/-- Lines 367-380: the month-reconciliation step.  Attempted only when the
date pair has equal start and end components and at least one sample month
is good; when the combination list is non-empty, the event rows are
re-filtered by `Start Month.isin(sm) & End Month.isin(em)` (pandas `isin`
against the NaN-free lists `sm`/`em`: a NaN cell matches nothing) and the
sample-month list becomes the first components of the combinations;
otherwise both inputs pass through unchanged. -/
def reconcile (dfmatch : List EventRow) (gm0 : List (Option ℚ)) (se0 se1 : Int) :
    List EventRow × List (Option ℚ) :=
  if se0 = se1 ∧ gm0.filter isGoodMonth ≠ [] then
    let fnd := fndMonths dfmatch gm0
    if fnd ≠ [] then
      let sm := fnd.map (fun p => p.2.1)
      let em := fnd.map (fun p => p.2.2)
      (dfmatch.filter (fun r =>
          (match r.startMonth with | some v => decide (v ∈ sm) | none => false) &&
          (match r.endMonth with | some v => decide (v ∈ em) | none => false)),
       fnd.map (fun p => (some p.1 : Option ℚ)))
    else (dfmatch, gm0)
  else (dfmatch, gm0)

/-- Lines 358-390, one iteration of the loop over `all_dates_gvp`: select the
event rows for the pair, reconcile months, take the first remaining event
row (`dfmatch[colsGvp].values[0]` — `none` models the IndexError raised when
no row is left), select the sample rows by year and month membership
(pandas `isin` over a list that may contain NaN matches a NaN cell, which
the `Option`-level membership test reproduces), and emit one joined row per
selected sample. -/
def joinOnePair (dfmatchv : List EventRow) (samples : List SampleRow)
    (p : Int × Int × Int) : Option (List JoinedRow) :=
  let gy := p.1
  let dfmatch := dfmatchSel dfmatchv p.2.1 p.2.2
  let gm0 := sampleMonths samples gy
  let dg := reconcile dfmatch gm0 p.2.1 p.2.2
  match dg.1.head? with
  | none => none
  | some rowgvp =>
    let rowsgeoroc := samples.filter (fun s =>
      decide (s.eruptionYear = some gy) && decide (s.eruptionMonth ∈ dg.2))
    some (rowsgeoroc.map (fun s =>
      { gvpName := rowgvp.volcanoName
        gvpStartYear := rowgvp.startYear
        gvpEndYear := rowgvp.endYear
        gvpVei := rowgvp.vei
        sample := s }))

/-- Lines 357-390: the loop over all matched date pairs, appending the joined
rows of each pair to `dfGvpGeo`; an exception in any iteration (`none`)
aborts the whole callback. -/
def joinAll (dfmatchv : List EventRow) (samples : List SampleRow) :
    List (Int × Int × Int) → Option (List JoinedRow)
  | [] => some []
  | p :: ps =>
    match joinOnePair dfmatchv samples p, joinAll dfmatchv samples ps with
    | some a, some b => some (a ++ b)
    | _, _ => none

/-- The eruption-date selector.  `all` is the "all" dropdown value.  `one`
carries the year parsed from the selector string together with the result of
the external specific-date matcher.  Modelled from the spec: the specific
date branch calls `match_GVPdates(name, thisdate, n)` (GVP_functions.py, not
under src/); §4.2 says it returns the single matching (start, end) pair or a
NOT_FOUND sentinel, modelled here as `Option (Int × Int)` supplied with the
selector, with the year being the integer prefix of the selector string. -/
inductive DateSel where
  | all
  | one (gy : Int) (res : Option (Int × Int))
deriving DecidableEq, Repr

/-- Modelled from the spec: `match_GVPdates(name, 'forall', n)`
(GVP_functions.py, not under src/).  §4.2: when the selector is "all",
return every distinct (year, [start, end]) pair available for the canonical
name across the event dataset; the year of a pair is its start year.  The
function receives the per-volcano view with null end years already filled,
which is the view the joiner matches the pairs against. -/
def matchGVPdatesAll (dfmatchv : List EventRow) : List (Int × Int × Int) :=
  uniqueFirst (dfmatchv.map (fun r => (r.startYear, r.startYear, r.endYear.getD r.startYear)))

/-- `update_joint_chemchart` (lines 301-408), restricted to the dataframe
`dff` it computes (the figure-drawing wrappers are out of scope).  Returns
`none` when the body would raise, `some rows` otherwise; both the
"start"/None branch and the no-alias-match branch yield an empty row set
(the empty chemistry frame of lines 394-399 carries no rows). -/
def update_joint_chemchart (sl gvp : List (String × String)) (df : List EventRow)
    (thisdf : List SampleRow) (name : Option String) (dsel : DateSel) :
    Option (List JoinedRow) :=
  match name with
  | none => some []
  | some nm =>
    if nm = "start" then some []
    else
      if (gvp.lookup nm).isSome ∨ (sl.lookup nm).isSome then
        let n := resolve sl gvp nm
        let dfmatchv0 := df.filter (fun r => decide (r.volcanoName = n))
        let dfmatchv := if dfmatchv0 ≠ [] then dfmatchv0.map fillEndYear else dfmatchv0
        let pairs :=
          match dsel with
          | .all => matchGVPdatesAll dfmatchv
          | .one gy res =>
            match res with
            | some se => [(gy, se.1, se.2)]
            | none => []
        joinAll dfmatchv thisdf pairs
      else some []

/-! ## The period classifier and superimposer (`add_chems`, lines 412-479) -/

/-- Lines 423-435: the per-period row filter applied to `thisdf`.  A NaN
year (`none`) fails every numeric comparison, so such rows are kept by no
period. -/
def periodKeep (p : Period) (r : SampleRow) : Bool :=
  match p with
  | .commonEraFrom1679 =>
    match r.eruptionYear with
    | some y => decide (1679 ≤ y)
    | none => false
  | .commonEraBefore1679 =>
    match r.eruptionYear with
    | some y => decide (y < 1679) && decide (0 < y)
    | none => false
  | .beforeCommonEra =>
    match r.eruptionYear with
    | some y => decide (y < 0)
    | none => false

/-- Lines 426-427: `np.where(month > 12, 1, month)` then
`np.where(month < 1, 1, month)`.  NaN compares false against both bounds and
passes through. -/
def clampMonth (m : Option ℚ) : Option ℚ :=
  let m1 : Option ℚ := match m with
    | some v => if 12 < v then some 1 else some v
    | none => none
  match m1 with
  | some v => if v < 1 then some 1 else some v
  | none => none

/-- Lines 429-430: `np.where(day > 31, 1, day)` then `day.replace(0, 1)`.
`replace` substitutes only cells exactly equal to 0; NaN passes through. -/
def clampDay (d : Option ℚ) : Option ℚ :=
  let d1 : Option ℚ := match d with
    | some v => if 31 < v then some 1 else some v
    | none => none
  match d1 with
  | some v => if v = 0 then some 1 else some v
  | none => none

/-- Lines 426-430 as a column operation on the filtered copy. -/
def clampCols (rows : List SampleRow) : List SampleRow :=
  rows.map (fun r =>
    { r with eruptionMonth := clampMonth r.eruptionMonth
             eruptionDay := clampDay r.eruptionDay })

/-- Round half to even at integer resolution.  Models Python `round` (which
rounds half to even); the source applies it to binary doubles, this model to
exact rationals — the two agree on the inputs appearing in this
development. -/
def roundHalfEven (x : ℚ) : Int :=
  let n := ⌊x⌋
  let r := x - n
  if r < 1/2 then n
  else if 1/2 < r then n + 1
  else if n % 2 = 0 then n else n + 1

/-- Python `round(x, 2)`: round to 2 decimal places. -/
def pyRound2 (x : ℚ) : ℚ := (roundHalfEven (100 * x) : ℚ) / 100

/-- Lines 438-440: the three oxide columns are cast to float and rounded to
2 decimal places (applied to the filtered copy). -/
def roundCols (rows : List SampleRow) : List SampleRow :=
  rows.map (fun r =>
    { r with k2o := pyRound2 r.k2o
             na2o := pyRound2 r.na2o
             sio2 := pyRound2 r.sio2 })

/-- Lines 423-435 followed by 438-440: the whole column pipeline of
`add_chems` before the trace loop — the period filter (with the calendar
clamps in the from-1679 branch) and the oxide roundings. -/
def periodPipeline (p : Period) (rows : List SampleRow) : List SampleRow :=
  let filtered := rows.filter (periodKeep p)
  let clamped := if p = .commonEraFrom1679 then clampCols filtered else filtered
  roundCols clamped

/-- The horizontal-axis value of one trace point: a calendar date for the
from-1679 period, the raw eruption year otherwise. -/
inductive XVal where
  | date (y : Int) (m d : Nat)
  | year (y : Int)
deriving DecidableEq, Repr

/-- Gregorian leap year. -/
def isLeap (y : Int) : Bool := y % 4 = 0 && (y % 100 != 0 || y % 400 = 0)

/-- Number of days of a month in the Gregorian calendar. -/
def daysInMonth (y : Int) (m : Nat) : Nat :=
  if m = 2 then (if isLeap y then 29 else 28)
  else if m = 4 ∨ m = 6 ∨ m = 9 ∨ m = 11 then 30
  else 31

/-- Line 448: `pd.to_datetime(dffc[['year', 'month', 'day']])` on one row.
pandas assembles a datetime only from integral month/day components that
form a real calendar date; otherwise it raises ValueError, modelled as
`none`.  (The pandas Timestamp year bounds are not modelled; no claim
depends on them.) -/
def assembleDate (y : Int) (m d : ℚ) : Option XVal :=
  if m.den = 1 ∧ d.den = 1 then
    let mi := m.num
    let di := d.num
    if 1 ≤ mi ∧ mi ≤ 12 ∧ 1 ≤ di ∧ (di : Int) ≤ (daysInMonth y mi.toNat : Int) then
      some (.date y mi.toNat di.toNat)
    else none
  else none

/-- Lines 447-450: the x-axis value of one (already filtered and clamped)
row.  For the from-1679 period a NaN year/month/day component also makes
`pd.to_datetime` raise (`none`); the other periods read the raw ERUPTION
YEAR column, which the period filter has already made non-NaN. -/
def rowX (p : Period) (r : SampleRow) : Option XVal :=
  match p with
  | .commonEraFrom1679 =>
    match r.eruptionYear, r.eruptionMonth, r.eruptionDay with
    | some y, some m, some d => assembleDate y m d
    | _, _, _ => none
  | _ =>
    match r.eruptionYear with
    | some y => some (.year y)
    | none => none

/-- Line 460: the alkalinity trace value `(0 - .4) + (K2O + NA2O) / 100` of
one pipelined row. -/
def alkaliTraceY (r : SampleRow) : ℚ := (0 - 2/5) + (r.k2o + r.na2o) / 100

/-- Line 474: the silica trace value `(0 - .4) + SIO2 / 100` of one
pipelined row. -/
def silicaTraceY (r : SampleRow) : ℚ := (0 - 2/5) + r.sio2 / 100

/-- Lines 442-478: for each rock label, select the pipelined rows of that
color and build the two traces; assembling any x-value fails (`none`) when
`pd.to_datetime` would raise, aborting the whole callback. -/
def add_chems (lbls : List String) (thisdf : List SampleRow) (p : Period) :
    Option (List (List (XVal × ℚ × ℚ))) :=
  let rows := periodPipeline p thisdf
  lbls.mapM (fun lbl =>
    let dffc := rows.filter (fun r => decide (r.color = lbl))
    dffc.mapM (fun r => (rowX p r).map (fun x => (x, alkaliTraceY r, silicaTraceY r))))

/-! ## Heap model of the dataframe objects (for the frame claims)

pandas object semantics used by the source, encoded below and justifying
the `alloc`/`set` choices: boolean-mask indexing `df[mask]` and
`DataFrame.rename` return fresh copies; a column assignment
`obj[col] = ...` mutates the object it is applied to in place (on a copy of
a slice this draws a SettingWithCopyWarning but never writes through to the
original); `DataFrame.append` returns a new frame.  The alias dicts are
never assigned to anywhere in page_5.py. -/

/-- A heap of reference-identified objects: an association list from
allocation ids to values, together with the next fresh id. -/
structure Heap (α : Type) where
  data : List (Nat × α)
  next : Nat
deriving Repr

/-- Read the object behind a reference. -/
def Heap.get {α : Type} (h : Heap α) (r : Nat) : Option α := h.data.lookup r

/-- Allocate a fresh object, returning its reference. -/
def Heap.alloc {α : Type} (h : Heap α) (v : α) : Nat × Heap α :=
  (h.next, ⟨(h.next, v) :: h.data, h.next + 1⟩)

/-- Overwrite the object behind a reference in place. -/
def Heap.set {α : Type} (h : Heap α) (r : Nat) (v : α) : Heap α :=
  ⟨(r, v) :: h.data, h.next⟩

/-- `update_joint_chemchart` with the shared eruption table `df` and the
caller's sample frame `thisdf` held behind references: line 333 allocates
the fresh slice copy `dfmatchv`; lines 338-339 mutate that copy in place;
everything else only reads.  Returns the two heaps and the result rows. -/
def update_joint_chemchart_heap (eh : Heap (List EventRow)) (sh : Heap (List SampleRow))
    (sl gvp : List (String × String)) (dfRef chemRef : Nat) (name : Option String)
    (dsel : DateSel) : Heap (List EventRow) × Heap (List SampleRow) × Option (List JoinedRow) :=
  match name with
  | none => (eh, sh, some [])
  | some nm =>
    if nm = "start" then (eh, sh, some [])
    else
      if (gvp.lookup nm).isSome ∨ (sl.lookup nm).isSome then
        let df := (eh.get dfRef).getD []
        let thisdf := (sh.get chemRef).getD []
        let n := resolve sl gvp nm
        -- line 333: df[df['Volcano Name'] == n] is a fresh copy
        let av := eh.alloc (df.filter (fun r => decide (r.volcanoName = n)))
        let eh1 := av.2
        let mvRef := av.1
        -- lines 336-339: the End Year fill is a column assignment on dfmatchv
        let eh2 :=
          if ((eh1.get mvRef).getD []) ≠ [] then
            eh1.set mvRef (((eh1.get mvRef).getD []).map fillEndYear)
          else eh1
        let dfmatchv := (eh2.get mvRef).getD []
        let pairs :=
          match dsel with
          | .all => matchGVPdatesAll dfmatchv
          | .one gy res =>
            match res with
            | some se => [(gy, se.1, se.2)]
            | none => []
        (eh2, sh, joinAll dfmatchv thisdf pairs)
      else (eh, sh, some [])

/-- `add_chems` with the caller's sample frame behind a reference: lines
424/433/435 rebind `thisdf` to a fresh filtered (and renamed) copy; the
clamp assignments of lines 426-430 and the rounding assignments of lines
438-440 mutate that copy in place.  Returns the heap and the traces. -/
def add_chems_heap (sh : Heap (List SampleRow)) (lbls : List String) (chemRef : Nat)
    (p : Period) : Heap (List SampleRow) × Option (List (List (XVal × ℚ × ℚ))) :=
  let v0 := (sh.get chemRef).getD []
  -- lines 424/433/435: boolean-mask filter (+ rename) returns a copy
  let ar := sh.alloc (v0.filter (periodKeep p))
  let sh1 := ar.2
  let r1 := ar.1
  -- lines 426-430: calendar clamps, column assignments on the copy
  let sh2 :=
    if p = .commonEraFrom1679 then sh1.set r1 (clampCols ((sh1.get r1).getD []))
    else sh1
  -- lines 438-440: oxide roundings, column assignments on the copy
  let sh3 := sh2.set r1 (roundCols ((sh2.get r1).getD []))
  let rows := (sh3.get r1).getD []
  (sh3, lbls.mapM (fun lbl =>
    let dffc := rows.filter (fun r => decide (r.color = lbl))
    dffc.mapM (fun r => (rowX p r).map (fun x => (x, alkaliTraceY r, silicaTraceY r)))))

/-! ## Helper lemmas -/

/-- Membership in the cleaned event month-pair list. -/
theorem mem_cleanPairs (dfmatch : List EventRow) (x : ℚ × ℚ) :
    x ∈ cleanPairs dfmatch ↔
      ∃ r ∈ dfmatch, r.startMonth = some x.1 ∧ r.endMonth = some x.2 ∧ 0 < x.1 ∧ 0 < x.2 := by
  unfold cleanPairs
  rw [List.mem_filterMap]
  constructor
  · rintro ⟨r, hr, hx⟩
    refine ⟨r, hr, ?_⟩
    cases hsm : r.startMonth with
    | none => rw [hsm] at hx; simp at hx
    | some a =>
      cases hem : r.endMonth with
      | none => rw [hsm, hem] at hx; simp at hx
      | some b =>
        rw [hsm, hem] at hx
        simp only [] at hx
        by_cases hab : 0 < a ∧ 0 < b
        · rw [if_pos hab] at hx
          obtain ⟨h1, h2⟩ := Prod.mk.injEq .. ▸ Option.some.injEq .. ▸ hx
          cases hx
          exact ⟨rfl, rfl, hab.1, hab.2⟩
        · rw [if_neg hab] at hx; cases hx
  · rintro ⟨r, hr, h1, h2, h3, h4⟩
    exact ⟨r, hr, by rw [h1, h2]; simp [h3, h4]⟩

/-- Membership in the (sampleMonth, eventMonthRange) combination list. -/
theorem mem_fndMonths (dfmatch : List EventRow) (gm0 : List (Option ℚ)) (y s e : ℚ) :
    (y, s, e) ∈ fndMonths dfmatch gm0 ↔
      (s, e) ∈ cleanPairs dfmatch ∧ some y ∈ gm0 ∧ s ≤ y ∧ y ≤ e := by
  unfold fndMonths
  rw [List.mem_flatMap]
  constructor
  · rintro ⟨x, hx, hin⟩
    rw [List.mem_filterMap] at hin
    obtain ⟨yo, hyo, heq⟩ := hin
    cases yo with
    | none => simp at heq
    | some y' =>
      simp only [] at heq
      by_cases hc : x.1 ≤ y' ∧ y' ≤ x.2
      · rw [if_pos hc] at heq
        cases heq
        exact ⟨hx, hyo, hc.1, hc.2⟩
      · rw [if_neg hc] at heq; cases heq
  · rintro ⟨hx, hy, h1, h2⟩
    exact ⟨(s, e), hx, List.mem_filterMap.2 ⟨some y, hy, by simp [h1, h2]⟩⟩

/-- Every combination's sample month is strictly positive (it lies above a
cleaned range's positive start). -/
theorem fndMonths_pos (dfmatch : List EventRow) (gm0 : List (Option ℚ)) :
    ∀ q ∈ fndMonths dfmatch gm0, 0 < q.1 := by
  rintro ⟨y, s, e⟩ hq
  rw [mem_fndMonths] at hq
  obtain ⟨hces, _, hsy, _⟩ := hq
  rw [mem_cleanPairs] at hces
  obtain ⟨r, _, _, _, hs, _⟩ := hces
  exact lt_of_lt_of_le hs hsy

/-- The reconciliation step in the branch where month matching applies and
found combinations exist. -/
theorem reconcile_pos (dfmatch : List EventRow) (gm0 : List (Option ℚ)) (se0 se1 : Int)
    (h1 : se0 = se1) (h2 : gm0.filter isGoodMonth ≠ [])
    (h3 : fndMonths dfmatch gm0 ≠ []) :
    reconcile dfmatch gm0 se0 se1 =
      (dfmatch.filter (fun r =>
          (match r.startMonth with
           | some v => decide (v ∈ (fndMonths dfmatch gm0).map (fun p => p.2.1))
           | none => false) &&
          (match r.endMonth with
           | some v => decide (v ∈ (fndMonths dfmatch gm0).map (fun p => p.2.2))
           | none => false)),
       (fndMonths dfmatch gm0).map (fun p => (some p.1 : Option ℚ))) := by
  unfold reconcile
  rw [if_pos ⟨h1, h2⟩]
  simp only []
  rw [if_pos h3]

/-- The reconciliation step is the identity when its precondition fails. -/
theorem reconcile_skip (dfmatch : List EventRow) (gm0 : List (Option ℚ)) (se0 se1 : Int)
    (h : ¬(se0 = se1 ∧ gm0.filter isGoodMonth ≠ [])) :
    reconcile dfmatch gm0 se0 se1 = (dfmatch, gm0) := by
  unfold reconcile
  rw [if_neg h]

/-- The reconciliation step is the identity when no combination is found. -/
theorem reconcile_empty (dfmatch : List EventRow) (gm0 : List (Option ℚ)) (se0 se1 : Int)
    (h : fndMonths dfmatch gm0 = []) :
    reconcile dfmatch gm0 se0 se1 = (dfmatch, gm0) := by
  unfold reconcile
  by_cases hc : se0 = se1 ∧ gm0.filter isGoodMonth ≠ []
  · rw [if_pos hc]
    simp only []
    rw [if_neg (by simp [h])]
  · rw [if_neg hc]

/-! ## C6: name resolution -/

/-- C6: for every raw volcano name, resolution first looks the name up in
the raw-to-short table, then looks the (possibly replaced) value up in the
short-to-canonical-event table; if the second lookup fails the result is the
title-cased transform of the original raw name (not of the short form), and
no error is raised (both functions are total).  The code's sequential-if
block equals the spec's description. -/
theorem C6_resolve_matches_spec (sl gvp : List (String × String)) (raw : String) :
    resolve sl gvp raw = resolveSpec sl gvp raw := by
  unfold resolve resolveSpec
  cases h1 : sl.lookup raw with
  | none =>
    simp only [h1, Option.isSome_none, Bool.false_eq_true, if_false]
    cases h2 : gvp.lookup raw with
    | none => simp [h2]
    | some c => simp [h2]
  | some s =>
    simp only [h1, Option.isSome_some, if_true, Option.getD_some]
    cases h2 : gvp.lookup s with
    | none => simp [h2]
    | some c => simp [h2]

/-! ## C3: the period partition -/

/-- A sample row dated to year 0. -/
def c3row : SampleRow := ⟨some 0, some 1, some 1, 50, 3, 2, "red"⟩

/-- C3 is false as stated: the claim puts every year with 0 <= year < 1679
into CommonEraBefore1679, but the code's filter demands year > 0, so the
year-0 row is admitted by no period and the partition is not total. -/
theorem C3_counterexample :
    c3row.eruptionYear = some 0 ∧ (0 : Int) ≤ 0 ∧ (0 : Int) < 1679 ∧
    periodKeep .commonEraBefore1679 c3row = false ∧
    periodKeep .beforeCommonEra c3row = false ∧
    periodKeep .commonEraFrom1679 c3row = false := by decide

/-- C3 (amended): the period filters admit year < 0, 0 < year < 1679 and
year >= 1679 respectively; they are pairwise disjoint, every nonzero year is
admitted by exactly one of them, and year 0 is admitted by none. -/
theorem C3_period_partition (r : SampleRow) (y : Int) (h : r.eruptionYear = some y) :
    (periodKeep .beforeCommonEra r = true ↔ y < 0) ∧
    (periodKeep .commonEraBefore1679 r = true ↔ 0 < y ∧ y < 1679) ∧
    (periodKeep .commonEraFrom1679 r = true ↔ 1679 ≤ y) ∧
    (y ≠ 0 → (periodKeep .beforeCommonEra r = true ∨
              periodKeep .commonEraBefore1679 r = true ∨
              periodKeep .commonEraFrom1679 r = true)) ∧
    ¬(periodKeep .beforeCommonEra r = true ∧ periodKeep .commonEraBefore1679 r = true) ∧
    ¬(periodKeep .beforeCommonEra r = true ∧ periodKeep .commonEraFrom1679 r = true) ∧
    ¬(periodKeep .commonEraBefore1679 r = true ∧ periodKeep .commonEraFrom1679 r = true) ∧
    (y = 0 → periodKeep .beforeCommonEra r = false ∧
             periodKeep .commonEraBefore1679 r = false ∧
             periodKeep .commonEraFrom1679 r = false) := by
  obtain ⟨ey, em, ed, s1, s2, s3, c⟩ := r
  subst h
  refine ⟨?_, ?_, ?_, ?_, ?_, ?_, ?_, ?_⟩ <;>
    simp only [periodKeep, Bool.and_eq_true, decide_eq_true_eq, decide_eq_false_iff_not,
      Bool.and_eq_false_iff] <;>
    omega

/-- A sample row dated to year 2000, for the witness. -/
def c3row2000 : SampleRow := ⟨some 2000, some 1, some 1, 50, 3, 2, "red"⟩

/-- Witness for C3_period_partition at the concrete year 2000. -/
theorem C3_period_partition_witness :
    c3row2000.eruptionYear = some 2000 ∧
    ((2000 : Int) ≠ 0 → (periodKeep .beforeCommonEra c3row2000 = true ∨
        periodKeep .commonEraBefore1679 c3row2000 = true ∨
        periodKeep .commonEraFrom1679 c3row2000 = true)) ∧
    (periodKeep .commonEraFrom1679 c3row2000 = true ↔ (1679 : Int) ≤ 2000) :=
  ⟨rfl, (C3_period_partition c3row2000 2000 rfl).2.2.2.1,
    (C3_period_partition c3row2000 2000 rfl).2.2.1⟩

/-! ## C7: calendar clamping -/

/-- C7 is false as stated: the claim clamps every day value outside [1,31]
to 1, but a negative day passes both `np.where(day > 31, 1, day)` and
`replace(0, 1)` unchanged. -/
theorem C7_counterexample :
    clampDay (some (-1)) = some (-1) ∧ ¬((1 : ℚ) ≤ -1 ∧ (-1 : ℚ) ≤ 31) ∧
    clampDay (some (-1)) ≠ some 1 := by decide

/-- C7 (amended): under CommonEraFrom1679 every month value outside [1,12]
is clamped to 1 and in-range months are kept; day values greater than 31 are
replaced by 1 and day == 0 is treated as 1, in-range days are kept, but
other out-of-range days (negative or fractional below 1) pass through
unchanged; in particular month=13 projects to 1 and day=0 projects to 1. -/
theorem C7_clamping :
    (∀ m : ℚ, (m < 1 ∨ 12 < m) → clampMonth (some m) = some 1) ∧
    (∀ m : ℚ, 1 ≤ m → m ≤ 12 → clampMonth (some m) = some m) ∧
    (∀ d : ℚ, (31 < d ∨ d = 0) → clampDay (some d) = some 1) ∧
    (∀ d : ℚ, 1 ≤ d → d ≤ 31 → clampDay (some d) = some d) ∧
    clampMonth (some 13) = some 1 ∧ clampDay (some 0) = some 1 := by
  refine ⟨?_, ?_, ?_, ?_, by decide, by decide⟩
  · intro m hm
    unfold clampMonth
    simp only []
    by_cases h12 : 12 < m
    · rw [if_pos h12]
      simp only []
      norm_num
    · rw [if_neg h12]
      simp only []
      rcases hm with h | h
      · rw [if_pos h]
      · exact absurd h h12
  · intro m h1 h2
    unfold clampMonth
    simp only []
    rw [if_neg (by linarith : ¬(12 : ℚ) < m)]
    simp only []
    rw [if_neg (by linarith : ¬m < (1 : ℚ))]
  · intro d hd
    unfold clampDay
    simp only []
    by_cases h31 : 31 < d
    · rw [if_pos h31]
      simp only []
      norm_num
    · rw [if_neg h31]
      simp only []
      rcases hd with h | h
      · exact absurd h h31
      · rw [if_pos h]
  · intro d h1 h2
    unfold clampDay
    simp only []
    rw [if_neg (by linarith : ¬(31 : ℚ) < d)]
    simp only []
    rw [if_neg (by intro h; rw [h] at h1; norm_num at h1)]


/-- Witness for C7_clamping at month 13 and day 0. -/
theorem C7_clamping_witness :
    ((13 : ℚ) < 1 ∨ (12 : ℚ) < 13) ∧ clampMonth (some 13) = some 1 ∧
    ((31 : ℚ) < 0 ∨ (0 : ℚ) = 0) ∧ clampDay (some 0) = some 1 :=
  ⟨Or.inr (by norm_num), C7_clamping.1 13 (Or.inr (by norm_num)),
   Or.inr rfl, C7_clamping.2.2.1 0 (Or.inr rfl)⟩

/-! ## C9: the silica overlay series -/

/-- Rounding half to even lands within 1/2 of the input. -/
theorem abs_roundHalfEven_sub_le (x : ℚ) : |(roundHalfEven x : ℚ) - x| ≤ 1/2 := by
  unfold roundHalfEven
  have h0 : ((⌊x⌋ : Int) : ℚ) ≤ x := Int.floor_le x
  have h1 : x < (⌊x⌋ : Int) + 1 := Int.lt_floor_add_one x
  simp only []
  split_ifs with ha hb hc <;> rw [abs_le] <;> push_cast <;> constructor <;> linarith

/-- A sample row whose SiO2 is the claim's 62.345. -/
def c9row : SampleRow := ⟨some 1900, some 1, some 1, 62345/1000, 3, 2, "red"⟩

/-- C9 is false as stated: for SiO2 = 62.345 the silica trace value is
(0 - 0.4) + round(62.345, 2)/100 = -0.4 + 62.34/100 = 0.2234, which is
neither the claim's -0.38 nor its intermediate 0.62 - 0.4 = 0.22; the claim
rounds SiO2/100 instead of SiO2 and its arithmetic 0.62 - 0.4 = -0.38 is
wrong besides. -/
theorem C9_counterexample :
    (roundCols [c9row]).map silicaTraceY = [2234/10000] ∧
    (2234/10000 : ℚ) ≠ -(38/100) ∧
    (2234/10000 : ℚ) ≠ 62/100 - 40/100 := by
  refine ⟨?_, by norm_num, by norm_num⟩
  simp only [roundCols, silicaTraceY, c9row, List.map_cons, List.map_nil, List.cons.injEq,
    and_true]
  norm_num [pyRound2, roundHalfEven]

/-- C9 (amended): the silica series value for a sample equals -0.4 plus
(SiO2 rounded to 2 decimal places) / 100 — the rounding is applied to the
SiO2 column before the division and offset; the rounded column is an integer
multiple of 1/100 within 1/200 of the original value; for SiO2 = 62.345 the
series value is -0.4 + 62.34/100 = 0.2234. -/
theorem C9_silica_series :
    (∀ r : SampleRow, (roundCols [r]).map silicaTraceY =
      [(0 - 2/5) + pyRound2 r.sio2 / 100]) ∧
    (∀ x : ℚ, ∃ n : Int, pyRound2 x = (n : ℚ) / 100 ∧ |pyRound2 x - x| ≤ 1/200) ∧
    (roundCols [c9row]).map silicaTraceY = [2234/10000] := by
  refine ⟨?_, ?_, ?_⟩
  · intro r
    simp [roundCols, silicaTraceY]
  · intro x
    refine ⟨roundHalfEven (100 * x), rfl, ?_⟩
    have hb := abs_roundHalfEven_sub_le (100 * x)
    have hx : pyRound2 x - x = ((roundHalfEven (100 * x) : ℚ) - 100 * x) / 100 := by
      unfold pyRound2
      ring
    rw [hx, abs_div]
    rw [show |(100 : ℚ)| = 100 by norm_num]
    linarith [hb, abs_nonneg ((roundHalfEven (100 * x) : ℚ) - 100 * x)]
  · simp only [roundCols, silicaTraceY, c9row, List.map_cons, List.map_nil, List.cons.injEq,
      and_true]
    norm_num [pyRound2, roundHalfEven]

/-! ## C2: the Feb-30 exception (code bug) -/

/-- A sample dated 1679-02-30: its month and day both survive the clamps
but do not form a valid calendar date. -/
def c2row : SampleRow := ⟨some 1679, some 2, some 30, 50, 3, 2, "red"⟩

/-- C2: the claim (the pipeline never raises for missing or malformed data)
is the documented intent, but the code slips: a GEOROC sample dated
1679-02-30 passes the period filter and both calendar clamps unchanged, and
`pd.to_datetime` then raises ValueError (day out of range for month) —
modelled as the `none` result — instead of degrading to fewer rows. -/
theorem C2_feb30_raises :
    periodKeep .commonEraFrom1679 c2row = true ∧
    clampMonth c2row.eruptionMonth = some 2 ∧
    clampDay c2row.eruptionDay = some 30 ∧
    add_chems ["red"] [c2row] .commonEraFrom1679 = none := by decide

/-! ## C5: unresolved names and the joiner -/

/-- Raw-to-short alias table with an entry whose short form has no
canonical-event entry. -/
def c5sl : List (String × String) := [("foo bar", "baz")]

/-- Event table containing a volcano whose canonical name happens to equal
the title-cased raw name. -/
def c5df : List EventRow := [⟨"Foo Bar", 1900, some 1900, some 4, some 6, some 3⟩]

/-- Samples for the same year and a month inside the event's range. -/
def c5samples : List SampleRow := [⟨some 1900, some 5, some 1, 50, 3, 2, "red"⟩]

/-- C5 is false as stated: "foo bar" resolves through the raw-to-short table
("baz"), the second lookup fails, so the title-cased fallback "Foo Bar" is
used — yet the guard of line 321 passes (the name is a key of
dict_Georoc_sl) and the join against the fallback name produces a non-empty
JoinedRecord set. -/
theorem C5_counterexample :
    (List.lookup "foo bar" c5sl = some "baz") ∧
    (List.lookup "baz" ([] : List (String × String)) = none) ∧
    resolve c5sl [] "foo bar" = pyTitle "foo bar" ∧
    (update_joint_chemchart c5sl [] c5df c5samples (some "foo bar") .all).getD [] ≠ [] := by
  decide

/-- C5 (amended): for every raw volcano name absent from both alias tables,
the record joiner produces zero event matches and returns an empty
JoinedRecord set; a name present only in the raw-to-short table also takes
the title-cased fallback but is let past the guard and may still produce
matches. -/
theorem C5_absent_name_empty_join (sl gvp : List (String × String)) (df : List EventRow)
    (samples : List SampleRow) (nm : String) (dsel : DateSel)
    (h1 : sl.lookup nm = none) (h2 : gvp.lookup nm = none) :
    update_joint_chemchart sl gvp df samples (some nm) dsel = some [] := by
  unfold update_joint_chemchart
  by_cases hs : nm = "start"
  · simp [hs]
  · simp [hs, h1, h2]

/-- Witness for C5_absent_name_empty_join at a concrete absent name. -/
theorem C5_absent_name_empty_join_witness :
    List.lookup "unknown volcano" ([] : List (String × String)) = none ∧
    update_joint_chemchart [] [] c5df c5samples (some "unknown volcano") .all = some [] :=
  ⟨rfl, C5_absent_name_empty_join [] [] c5df c5samples "unknown volcano" .all rfl rfl⟩

/-! ## C10: the two charts can disagree -/

/-- Modelled from the spec: `update_chronogram([n], period)`
(GVP_functions.py, not under src/) draws the eruption history of the named
volcano, i.e. the eruption-event rows carrying that exact canonical name. -/
def chronogramEvents (df : List EventRow) (n : String) : List EventRow :=
  df.filter (fun r => decide (r.volcanoName = n))

/-- Lines 275-286 of `update_charts_rock_vei`: the name handed to
`update_chronogram` is the resolution result (the title-cased raw name when
both alias lookups fail). -/
def chronogramName (sl gvp : List (String × String)) (nm : String) : String :=
  resolve sl gvp nm

/-- C10: for every raw name (other than "start"/None) absent from both alias
tables, the main callback still builds the chronogram for the title-cased
raw name, while the joined chemistry set of update_joint_chemchart is
unconditionally empty — so the chronogram may display eruption events (when
the title-cased name coincides with a canonical name) for inputs whose
joined set is empty. -/
theorem C10_charts_disagree (sl gvp : List (String × String)) (df : List EventRow)
    (samples : List SampleRow) (nm : String) (dsel : DateSel)
    (h0 : nm ≠ "start") (h1 : sl.lookup nm = none) (h2 : gvp.lookup nm = none) :
    chronogramName sl gvp nm = pyTitle nm ∧
    update_joint_chemchart sl gvp df samples (some nm) dsel = some [] := by
  constructor
  · unfold chronogramName resolve
    simp [h1, h2]
  · unfold update_joint_chemchart
    simp [h0, h1, h2]

/-- Event table for the C10 witness: events exist under the canonical name
"Foo". -/
def c10df : List EventRow := [⟨"Foo", 1900, some 1900, some 4, some 6, some 3⟩]

/-- Samples for the C10 witness. -/
def c10samples : List SampleRow := [⟨some 1900, some 5, some 1, 50, 3, 2, "red"⟩]

/-- Witness for C10_charts_disagree: for the raw name "foo" (absent from
both tables) the chronogram is built for "Foo" and shows its eruption
events, while the joined chemistry set is empty. -/
theorem C10_charts_disagree_witness :
    (chronogramName [] [] "foo" = pyTitle "foo" ∧
      update_joint_chemchart [] [] c10df c10samples (some "foo") .all = some []) ∧
    pyTitle "foo" = "Foo" ∧
    chronogramEvents c10df (pyTitle "foo") ≠ [] :=
  ⟨C10_charts_disagree [] [] c10df c10samples "foo" .all (by decide) rfl rfl,
   by decide, by decide⟩

/-! ## C4: months of joined sample rows -/

/-- Short-to-canonical table for the C4 counterexample. -/
def c4gvp : List (String × String) := [("volc x", "VolcX")]

/-- Event table with a two-year eruption (start 1900, end 1901), so month
reconciliation is never attempted for its date pair. -/
def c4df : List EventRow := [⟨"VolcX", 1900, some 1901, some 3, some 4, some 2⟩]

/-- A sample of year 1900 whose month is 0 — non-null but not positive. -/
def c4samples : List SampleRow := [⟨some 1900, some 0, some 1, 50, 3, 2, "red"⟩]

/-- C4 is false as stated: on the fallback path (here a multi-year date
pair) the joiner filters samples only by year and by membership in the raw
unique month list, so the month-0 sample appears in the joined output even
though its month is not strictly positive. -/
theorem C4_counterexample :
    (update_joint_chemchart [] c4gvp c4df c4samples (some "volc x") .all).getD [] ≠ [] ∧
    (∀ jr ∈ (update_joint_chemchart [] c4gvp c4df c4samples (some "volc x") .all).getD [],
      jr.sample.eruptionMonth = some 0) ∧
    ¬(0 : ℚ) > 0 := by decide

/-- C4 (amended): joined sample rows are selected by matched year and by
membership of their month in the month list; only when month reconciliation
succeeds (equal year strings, a good sample month, and a non-empty
combination list) is that list made of non-null positive months, and then
every sample row appearing in the joined output has a non-null eruption
month strictly greater than 0; on the fallback paths the unfiltered unique
month list is used and null or non-positive months may appear. -/
theorem C4_reconciled_month_positive (dfmatchv : List EventRow) (samples : List SampleRow)
    (gy se0 se1 : Int) (h1 : se0 = se1)
    (h2 : (sampleMonths samples gy).filter isGoodMonth ≠ [])
    (h3 : fndMonths (dfmatchSel dfmatchv se0 se1) (sampleMonths samples gy) ≠ []) :
    ∀ jr ∈ (joinOnePair dfmatchv samples (gy, se0, se1)).getD [],
      ∃ m : ℚ, jr.sample.eruptionMonth = some m ∧ 0 < m := by
  intro jr hjr
  unfold joinOnePair at hjr
  simp only [] at hjr
  rw [reconcile_pos _ _ _ _ h1 h2 h3] at hjr
  simp only [] at hjr
  cases hh : (List.filter (fun r =>
      (match r.startMonth with
       | some v => decide (v ∈ (fndMonths (dfmatchSel dfmatchv se0 se1)
           (sampleMonths samples gy)).map (fun p => p.2.1))
       | none => false) &&
      (match r.endMonth with
       | some v => decide (v ∈ (fndMonths (dfmatchSel dfmatchv se0 se1)
           (sampleMonths samples gy)).map (fun p => p.2.2))
       | none => false)) (dfmatchSel dfmatchv se0 se1)).head? with
  | none =>
    rw [hh] at hjr
    simp at hjr
  | some rowgvp =>
    rw [hh] at hjr
    simp only [Option.getD_some, List.mem_map, List.mem_filter, Bool.and_eq_true,
      decide_eq_true_eq] at hjr
    obtain ⟨s, hs, rfl⟩ := hjr
    obtain ⟨hsmem, hyear, hm⟩ := hs
    obtain ⟨q, hq, hqe⟩ := hm
    exact ⟨q.1, hqe.symm, fndMonths_pos _ _ q hq⟩

/-- Event table for the C4 witness: a single-year eruption with month range
[4,6]. -/
def c4wEvents : List EventRow := [⟨"W", 1950, some 1950, some 4, some 6, some 2⟩]

/-- Samples for the C4 witness: one sample of month 5. -/
def c4wSamples : List SampleRow := [⟨some 1950, some 5, some 1, 50, 3, 2, "red"⟩]

/-- Witness for C4_reconciled_month_positive where reconciliation succeeds. -/
theorem C4_reconciled_month_positive_witness :
    (sampleMonths c4wSamples 1950).filter isGoodMonth ≠ [] ∧
    fndMonths (dfmatchSel c4wEvents 1950 1950) (sampleMonths c4wSamples 1950) ≠ [] ∧
    ∀ jr ∈ (joinOnePair c4wEvents c4wSamples (1950, 1950, 1950)).getD [],
      ∃ m : ℚ, jr.sample.eruptionMonth = some m ∧ 0 < m :=
  ⟨by decide, by decide,
   C4_reconciled_month_positive c4wEvents c4wSamples 1950 1950 1950 rfl (by decide) (by decide)⟩

/-! ## C1: the month-reconciliation step -/

/-- Event rows for the C1 counterexample: three single-year events with
month ranges (5,10), (2,6) and (5,6). -/
def c1events : List EventRow :=
  [⟨"V", 1900, some 1900, some 5, some 10, some 2⟩,
   ⟨"V", 1900, some 1900, some 2, some 6, some 2⟩,
   ⟨"V", 1900, some 1900, some 5, some 6, some 2⟩]

/-- Samples for the C1 counterexample: months 8 and 3. -/
def c1samples : List SampleRow :=
  [⟨some 1900, some 8, some 1, 50, 3, 2, "red"⟩,
   ⟨some 1900, some 3, some 1, 50, 3, 2, "red"⟩]

/-- C1 is false as stated: the found combinations are (8,(5,10)) and
(3,(2,6)) — the range (5,6) contains no sample month and appears in no
combination — yet the re-filter keeps the (5,6) event row, because line 380
tests Start Month and End Month membership independently
(`isin(sm) & isin(em)`), not membership of the pair. -/
theorem C1_counterexample :
    (⟨"V", 1900, some 1900, some 5, some 6, some 2⟩ : EventRow) ∈
      (reconcile (dfmatchSel c1events 1900 1900) (sampleMonths c1samples 1900) 1900 1900).1 ∧
    (∀ q ∈ fndMonths (dfmatchSel c1events 1900 1900) (sampleMonths c1samples 1900),
      ¬(q.2.1 = 5 ∧ q.2.2 = 6)) := by decide

/-- C1 (amended): month reconciliation is attempted only when the matched
date pair has equal start and end components and at least one year-matched
sample month is non-null and positive; the combination list pairs each
cleaned event month range (both components non-null and positive) with each
sample month it contains; when combinations exist, the event rows are
re-filtered to keep exactly those whose start month appears as the start of
some found combination and whose end month appears as the end of some
(possibly different) found combination, and the sample-month list becomes
the months appearing in a combination; with zero combinations, or when the
precondition fails, both inputs pass through unfiltered. -/
theorem C1_month_reconciliation (dfmatch : List EventRow) (gm0 : List (Option ℚ))
    (se0 se1 : Int) :
    (¬(se0 = se1 ∧ gm0.filter isGoodMonth ≠ []) →
      reconcile dfmatch gm0 se0 se1 = (dfmatch, gm0)) ∧
    (fndMonths dfmatch gm0 = [] → reconcile dfmatch gm0 se0 se1 = (dfmatch, gm0)) ∧
    (se0 = se1 → gm0.filter isGoodMonth ≠ [] → fndMonths dfmatch gm0 ≠ [] →
      (∀ r : EventRow, r ∈ (reconcile dfmatch gm0 se0 se1).1 ↔
          r ∈ dfmatch ∧
          (∃ q ∈ fndMonths dfmatch gm0, r.startMonth = some q.2.1) ∧
          (∃ q ∈ fndMonths dfmatch gm0, r.endMonth = some q.2.2)) ∧
      (reconcile dfmatch gm0 se0 se1).2 =
        (fndMonths dfmatch gm0).map (fun q => (some q.1 : Option ℚ))) ∧
    (∀ y s e : ℚ, (y, s, e) ∈ fndMonths dfmatch gm0 ↔
      ((s, e) ∈ cleanPairs dfmatch ∧ some y ∈ gm0 ∧ s ≤ y ∧ y ≤ e)) ∧
    (∀ x : ℚ × ℚ, x ∈ cleanPairs dfmatch ↔
      ∃ r ∈ dfmatch, r.startMonth = some x.1 ∧ r.endMonth = some x.2 ∧ 0 < x.1 ∧ 0 < x.2) := by
  refine ⟨reconcile_skip dfmatch gm0 se0 se1, reconcile_empty dfmatch gm0 se0 se1, ?_,
    mem_fndMonths dfmatch gm0, mem_cleanPairs dfmatch⟩
  intro h1 h2 h3
  rw [reconcile_pos dfmatch gm0 se0 se1 h1 h2 h3]
  refine ⟨?_, rfl⟩
  intro r
  rw [List.mem_filter, Bool.and_eq_true]
  constructor
  · rintro ⟨hr, hsm, hem⟩
    refine ⟨hr, ?_, ?_⟩
    · cases hs : r.startMonth with
      | none => rw [hs] at hsm; cases hsm
      | some v =>
        rw [hs] at hsm
        simp only [decide_eq_true_eq] at hsm
        rw [List.mem_map] at hsm
        obtain ⟨q, hq, hqv⟩ := hsm
        exact ⟨q, hq, congrArg some hqv.symm⟩
    · cases he : r.endMonth with
      | none => rw [he] at hem; cases hem
      | some v =>
        rw [he] at hem
        simp only [decide_eq_true_eq] at hem
        rw [List.mem_map] at hem
        obtain ⟨q, hq, hqv⟩ := hem
        exact ⟨q, hq, congrArg some hqv.symm⟩
  · rintro ⟨hr, ⟨q1, hq1, he1⟩, ⟨q2, hq2, he2⟩⟩
    refine ⟨hr, ?_, ?_⟩
    · rw [he1]
      simp only [decide_eq_true_eq]
      exact List.mem_map.2 ⟨q1, hq1, rfl⟩
    · rw [he2]
      simp only [decide_eq_true_eq]
      exact List.mem_map.2 ⟨q2, hq2, rfl⟩

/-- Witness for C1_month_reconciliation at the concrete counterexample
tables, discharging the reconciliation-branch hypotheses. -/
theorem C1_month_reconciliation_witness :
    (sampleMonths c1samples 1900).filter isGoodMonth ≠ [] ∧
    fndMonths (dfmatchSel c1events 1900 1900) (sampleMonths c1samples 1900) ≠ [] ∧
    (reconcile (dfmatchSel c1events 1900 1900) (sampleMonths c1samples 1900) 1900 1900).2 =
      (fndMonths (dfmatchSel c1events 1900 1900) (sampleMonths c1samples 1900)).map
        (fun q => (some q.1 : Option ℚ)) :=
  ⟨by decide, by decide,
   ((C1_month_reconciliation (dfmatchSel c1events 1900 1900) (sampleMonths c1samples 1900)
      1900 1900).2.2.1 rfl (by decide) (by decide)).2⟩

/-! ## C8: no shared-state mutation -/

/-- Writing one reference leaves every other reference unchanged. -/
theorem Heap.get_set_ne {α : Type} (h : Heap α) (r r' : Nat) (v : α) (hne : r ≠ r') :
    (h.set r v).get r' = h.get r' := by
  have hb : (r' == r) = false := beq_eq_false_iff_ne.mpr (Ne.symm hne)
  simp [Heap.set, Heap.get, List.lookup, hb]

/-- Reading a reference just written yields the written value. -/
theorem Heap.get_set_self {α : Type} (h : Heap α) (r : Nat) (v : α) :
    (h.set r v).get r = some v := by
  simp [Heap.set, Heap.get, List.lookup]

/-- Allocation leaves every previously allocated reference unchanged. -/
theorem Heap.get_alloc_lt {α : Type} (h : Heap α) (v : α) (r : Nat) (hr : r < h.next) :
    (h.alloc v).2.get r = h.get r := by
  have hb : (r == h.next) = false := beq_eq_false_iff_ne.mpr (by omega)
  simp [Heap.alloc, Heap.get, List.lookup, hb]

/-- Reading a freshly allocated reference yields the allocated value. -/
theorem Heap.get_alloc_self {α : Type} (h : Heap α) (v : α) :
    (h.alloc v).2.get (h.alloc v).1 = some v := by
  simp [Heap.alloc, Heap.get, List.lookup]

/-- Projection of a fresh allocation's reference. -/
theorem Heap.alloc_fst {α : Type} (h : Heap α) (v : α) : (h.alloc v).1 = h.next := rfl

/-- Reading a freshly allocated reference through its numeric id. -/
theorem Heap.get_alloc_next {α : Type} (h : Heap α) (v : α) :
    (h.alloc v).2.get h.next = some v := by
  simp [Heap.alloc, Heap.get, List.lookup]

/-- The joiner leaves the shared eruption table and the caller's sample
frame untouched, and its result agrees with the pure model. -/
theorem joint_heap_frame (eh : Heap (List EventRow)) (sh : Heap (List SampleRow))
    (sl gvp : List (String × String)) (dfRef chemRef : Nat) (name : Option String)
    (dsel : DateSel) (hdf : dfRef < eh.next) :
    (update_joint_chemchart_heap eh sh sl gvp dfRef chemRef name dsel).1.get dfRef =
      eh.get dfRef ∧
    (update_joint_chemchart_heap eh sh sl gvp dfRef chemRef name dsel).2.1 = sh ∧
    (update_joint_chemchart_heap eh sh sl gvp dfRef chemRef name dsel).2.2 =
      update_joint_chemchart sl gvp ((eh.get dfRef).getD []) ((sh.get chemRef).getD [])
        name dsel := by
  have hne : eh.next ≠ dfRef := by omega
  cases name with
  | none => exact ⟨rfl, rfl, rfl⟩
  | some nm =>
    unfold update_joint_chemchart_heap update_joint_chemchart
    simp only []
    by_cases hs : nm = "start"
    · simp [hs]
    · rw [if_neg hs, if_neg hs]
      by_cases hg : (gvp.lookup nm).isSome ∨ (sl.lookup nm).isSome
      · rw [if_pos hg, if_pos hg]
        simp only [Heap.alloc_fst, Heap.get_alloc_next, Option.getD_some]
        refine ⟨?_, trivial, ?_⟩
        · split_ifs with hC
          · rw [Heap.get_set_ne _ _ _ _ hne, Heap.get_alloc_lt _ _ _ hdf]
          · rw [Heap.get_alloc_lt _ _ _ hdf]
        · split_ifs with hC
          · simp only [Heap.get_set_self, Option.getD_some]
          · simp only [Heap.alloc_fst, Heap.get_alloc_next, Option.getD_some]
      · rw [if_neg hg, if_neg hg]
        exact ⟨rfl, rfl, rfl⟩

/-- The superimposer leaves the caller's sample frame untouched, and its
result agrees with the pure model. -/
theorem add_chems_heap_frame (sh : Heap (List SampleRow)) (lbls : List String)
    (chemRef : Nat) (p : Period) (hchem : chemRef < sh.next) :
    (add_chems_heap sh lbls chemRef p).1.get chemRef = sh.get chemRef ∧
    (add_chems_heap sh lbls chemRef p).2 = add_chems lbls ((sh.get chemRef).getD []) p := by
  have hne : sh.next ≠ chemRef := by omega
  unfold add_chems_heap add_chems periodPipeline
  simp only [Heap.alloc_fst, Heap.get_alloc_next, Option.getD_some]
  by_cases hp : p = .commonEraFrom1679
  · rw [if_pos hp, if_pos hp]
    constructor
    · rw [Heap.get_set_ne _ _ _ _ hne, Heap.get_set_ne _ _ _ _ hne,
        Heap.get_alloc_lt _ _ _ hchem]
    · simp only [Heap.get_set_self, Option.getD_some]
  · rw [if_neg hp, if_neg hp]
    constructor
    · rw [Heap.get_set_ne _ _ _ _ hne, Heap.get_alloc_lt _ _ _ hchem]
    · simp only [Heap.get_set_self, Option.getD_some, Heap.alloc_fst, Heap.get_alloc_next]

/-- C8: no invocation of the joiner or the superimposer mutates the shared
eruption table or the caller's sample dataframe: the End-Year fill runs on
the freshly copied per-volcano slice and the clamps/roundings on the
freshly copied filtered frame, so after either call every previously
allocated reference reads exactly as before, and the results agree with the
pure (copy-based) model.  The alias tables are plain read-only inputs: no
assignment to them exists in page_5.py. -/
theorem C8_no_shared_mutation (eh : Heap (List EventRow)) (sh : Heap (List SampleRow))
    (sl gvp : List (String × String)) (dfRef chemRef : Nat) (name : Option String)
    (dsel : DateSel) (lbls : List String) (p : Period)
    (hdf : dfRef < eh.next) (hchem : chemRef < sh.next) :
    (update_joint_chemchart_heap eh sh sl gvp dfRef chemRef name dsel).1.get dfRef =
      eh.get dfRef ∧
    (update_joint_chemchart_heap eh sh sl gvp dfRef chemRef name dsel).2.1 = sh ∧
    (update_joint_chemchart_heap eh sh sl gvp dfRef chemRef name dsel).2.2 =
      update_joint_chemchart sl gvp ((eh.get dfRef).getD []) ((sh.get chemRef).getD [])
        name dsel ∧
    (add_chems_heap sh lbls chemRef p).1.get chemRef = sh.get chemRef ∧
    (add_chems_heap sh lbls chemRef p).2 = add_chems lbls ((sh.get chemRef).getD []) p := by
  obtain ⟨h1, h2, h3⟩ := joint_heap_frame eh sh sl gvp dfRef chemRef name dsel hdf
  obtain ⟨h4, h5⟩ := add_chems_heap_frame sh lbls chemRef p hchem
  exact ⟨h1, h2, h3, h4, h5⟩

/-- Concrete event heap for the C8 witness. -/
def c8eh : Heap (List EventRow) :=
  ⟨[(0, [⟨"Foo Bar", 1900, none, some 4, some 6, some 3⟩])], 1⟩

/-- Concrete sample heap for the C8 witness. -/
def c8sh : Heap (List SampleRow) :=
  ⟨[(0, [⟨some 1900, some 5, some 1, 50, 3, 2, "red"⟩])], 1⟩

/-- Witness for C8_no_shared_mutation on concrete heaps (a run that takes
the End-Year-fill branch). -/
theorem C8_no_shared_mutation_witness :
    ((0 : Nat) < c8eh.next ∧ (0 : Nat) < c8sh.next) ∧
    (update_joint_chemchart_heap c8eh c8sh [("x", "Foo Bar")] [] 0 0 (some "x")
        .all).1.get 0 = c8eh.get 0 ∧
    (add_chems_heap c8sh ["red"] 0 .beforeCommonEra).1.get 0 = c8sh.get 0 :=
  ⟨⟨by decide, by decide⟩,
   (C8_no_shared_mutation c8eh c8sh [("x", "Foo Bar")] [] 0 0 (some "x") .all ["red"]
      .beforeCommonEra (by decide) (by decide)).1,
   (C8_no_shared_mutation c8eh c8sh [("x", "Foo Bar")] [] 0 0 (some "x") .all ["red"]
      .beforeCommonEra (by decide) (by decide)).2.2.2.1⟩

end DashVolcano
